import Mathlib

set_option linter.unusedVariables false

/-!
Verification development for the restaurant voice-agent repository.

The Python sources embedded here:
- `ai_agent.py` — `RestaurantAIAgent.analyze_intent`, `generate_response`,
  `_generate_mock_response`, `needs_escalation`;
- `app.py` — `CallSession`, the in-memory session registry, `get_session`,
  `get_ai_response`, and the three Twilio webhook handlers;
- `twilio_integration.py` — the `create_*_response` TwiML builders.

Strings are modelled by Lean `String`; Python dictionaries keyed by strings
are modelled as association lists; a TwiML response is modelled as the list
of verbs appended to the `VoiceResponse` object.
-/

namespace VoiceAgent

/-! ### String primitives (Python `in`, `str.lower`) -/

/-- `charsLead n h` = the list `n` is an initial segment of `h`. -/
def charsLead : List Char → List Char → Bool
  | [], _ => true
  | _ :: _, [] => false
  | a :: as, b :: bs => a = b && charsLead as bs

/-- `charsWithin n h` = the list `n` occurs contiguously inside `h`. -/
def charsWithin (n : List Char) : List Char → Bool
  | [] => charsLead n []
  | b :: bs => charsLead n (b :: bs) || charsWithin n bs

/-- Models the Python expression `needle in haystack` on strings:
substring (not whole-word) containment. -/
def strContains (haystack needle : String) : Bool :=
  charsWithin needle.data haystack.data

/-- ASCII lower-casing of one character, as Python `str.lower` acts on the
ASCII range used by this program. -/
def lowerChar (c : Char) : Char :=
  if 65 ≤ c.toNat ∧ c.toNat ≤ 90 then Char.ofNat (c.toNat + 32) else c

/-- Models Python `str.lower()` (ASCII range). -/
def lowerStr (s : String) : String :=
  ⟨s.data.map lowerChar⟩

/-! ### Association lists (Python `dict`) -/

/-- Python `d.get(key, default)`. -/
def alistGetD {α : Type} (l : List (String × α)) (key : String) (default : α) : α :=
  match l with
  | [] => default
  | (k, v) :: rest => if k = key then v else alistGetD rest key default

/-- Python `key in d` / `d[key]` read access, as an option. -/
def alistFind {α : Type} (l : List (String × α)) (key : String) : Option α :=
  match l with
  | [] => none
  | (k, v) :: rest => if k = key then some v else alistFind rest key

/-- Python `d[key] = v`: replace the binding if present, else append it. -/
def alistSet {α : Type} (l : List (String × α)) (key : String) (v : α) :
    List (String × α) :=
  match l with
  | [] => [(key, v)]
  | (k, w) :: rest =>
    if k = key then (key, v) :: rest else (k, w) :: alistSet rest key v

/-- Python `del d[key]`: remove the binding for `key`. -/
def alistErase {α : Type} (l : List (String × α)) (key : String) :
    List (String × α) :=
  l.filter (fun p => !(p.1 = key : Bool))

/-! ### Intents and the keyword tables (`ai_agent.py`, `analyze_intent`) -/

/-- The closed set of intent tags used by `analyze_intent`. -/
inductive Intent where
  | greeting
  | hours_inquiry
  | location_inquiry
  | menu_inquiry
  | order_request
  | reservation_request
  | complaint
  | delivery_inquiry
  | closing
  | contact_staff
  | general_inquiry
deriving DecidableEq, Repr

/-- Keyword list of the `"greeting"` entry of `intent_keywords`. -/
def greetingKeywords : List String :=
  ["hello", "hi", "hey", "good morning", "good afternoon", "good evening"]

/-- Keyword list of the `"hours_inquiry"` entry of `intent_keywords`. -/
def hoursKeywords : List String :=
  ["open", "close", "hours", "time", "when", "what time", "what are your hours"]

/-- Keyword list of the `"location_inquiry"` entry of `intent_keywords`. -/
def locationKeywords : List String :=
  ["where", "address", "location", "find", "direction", "located"]

/-- Keyword list of the `"menu_inquiry"` entry of `intent_keywords`. -/
def menuKeywords : List String :=
  ["menu", "food", "what do you", "what's on", "offer", "have"]

/-- Keyword list of the `"order_request"` entry of `intent_keywords`. -/
def orderKeywords : List String :=
  ["order", "place", "buy", "get", "delivery", "takeout", "take out"]

/-- Keyword list of the `"reservation_request"` entry of `intent_keywords`. -/
def reservationKeywords : List String :=
  ["reservation", "book", "table", "seat", "reserve"]

/-- Keyword list of the `"complaint"` entry of `intent_keywords`. -/
def complaintKeywords : List String :=
  ["problem", "issue", "wrong", "not", "complaint", "angry", "upset", "terrible", "bad"]

/-- Keyword list of the `"delivery_inquiry"` entry of `intent_keywords`. -/
def deliveryKeywords : List String :=
  ["delivery", "takeout", "take out", "pickup", "pick up", "carryout"]

/-- Keyword list of the `"closing"` entry of `intent_keywords`. -/
def closingKeywords : List String :=
  ["bye", "goodbye", "thanks", "thank you", "that's all", "see you", "later"]

/-- Keyword list of the `"contact_staff"` entry of `intent_keywords`. -/
def contactStaffKeywords : List String :=
  ["speak", "talk", "manager", "human", "staff", "person", "someone"]

/-- The `intent_keywords` dictionary of `analyze_intent`, in its literal
(insertion) iteration order. -/
def intentKeywords : List (Intent × List String) :=
  [(Intent.greeting, greetingKeywords),
   (Intent.hours_inquiry, hoursKeywords),
   (Intent.location_inquiry, locationKeywords),
   (Intent.menu_inquiry, menuKeywords),
   (Intent.order_request, orderKeywords),
   (Intent.reservation_request, reservationKeywords),
   (Intent.complaint, complaintKeywords),
   (Intent.delivery_inquiry, deliveryKeywords),
   (Intent.closing, closingKeywords),
   (Intent.contact_staff, contactStaffKeywords)]

/-- Body of the inner `for keyword in keywords` loop of `analyze_intent`:
`if keyword in message_lower: if intent not in detected: detected.append(intent)`. -/
def noteIntent (message_lower : String) (intent : Intent)
    (acc : List Intent) (keyword : String) : List Intent :=
  if strContains message_lower keyword then
    if intent ∈ acc then acc else acc ++ [intent]
  else acc

/-- One iteration of the outer `for intent, keywords in intent_keywords.items()`
loop of `analyze_intent`. -/
def detectStep (message_lower : String) (acc : List Intent)
    (entry : Intent × List String) : List Intent :=
  entry.2.foldl (noteIntent message_lower entry.1) acc

/-- The `detected_intents` list built by the nested loops of `analyze_intent`. -/
def detectIntents (message_lower : String) : List Intent :=
  intentKeywords.foldl (detectStep message_lower) []

/-- Result record of `analyze_intent`. -/
structure IntentAnalysis where
  primary_intent : Intent
  all_detected_intents : List Intent
  escalation_needed : Bool
deriving DecidableEq, Repr

/-- The `escalation_intents` list of `analyze_intent` (and of
`needs_escalation`). -/
def escalationIntents : List Intent :=
  [Intent.order_request, Intent.reservation_request, Intent.complaint,
   Intent.contact_staff]

/-- `RestaurantAIAgent.analyze_intent`: lower-case the message, collect every
intent one of whose keywords occurs as a substring (first-seen order,
de-duplicated), default to `general_inquiry` when none matched, take the first
detected intent as primary, and flag escalation when any detected intent lies
in `escalation_intents`. -/
def analyze_intent (user_message : String) : IntentAnalysis :=
  let message_lower := lowerStr user_message
  let detected0 := detectIntents message_lower
  let detected := if detected0 = [] then [Intent.general_inquiry] else detected0
  { primary_intent := detected.headD Intent.general_inquiry
    all_detected_intents := detected
    escalation_needed := detected.any (fun i => decide (i ∈ escalationIntents)) }

/-- `RestaurantAIAgent.needs_escalation` (with the analysis already computed):
returns `intent_analysis["escalation_needed"]`. -/
def needs_escalation (intent_analysis : IntentAnalysis) : Bool :=
  intent_analysis.escalation_needed

/-! ### Restaurant facts and the response generator -/

/-- The `restaurant_info` configuration record, loaded once from the
environment at startup (`ai_agent.py` and `app.py` read the same variables). -/
structure RestaurantInfo where
  name : String
  address : String
  hours : String
  menu_categories : List String
  delivery_policy : String
  phone : String
deriving DecidableEq, Repr

/-- The environment-default restaurant facts of `ai_agent.py`. -/
def defaultFacts : RestaurantInfo :=
  { name := "Your Restaurant Name"
    address := "123 Restaurant Street, City, State 12345"
    hours := "Open from 10 AM to 10 PM daily"
    menu_categories := ["Appetizers", "Main Courses", "Desserts", "Beverages"]
    delivery_policy := "We offer delivery within a 5-mile radius from 11 AM to 9 PM"
    phone := "Phone Number" }

/-- `RestaurantAIAgent._generate_mock_response`: a secondary keyword scan over
the raw utterance. -/
def generate_mock_response (info : RestaurantInfo) (user_message : String) :
    String :=
  let m := lowerStr user_message
  if strContains m "open" || strContains m "hour" then
    "We are " ++ lowerStr info.hours ++ "."
  else if strContains m "where" || strContains m "address" then
    "We are located at " ++ info.address ++ "."
  else if strContains m "menu" || strContains m "food" then
    "We offer " ++ String.intercalate ", " info.menu_categories ++ "."
  else if strContains m "order" || strContains m "delivery" then
    "I'd be happy to connect you with our staff who can help you place your order."
  else
    "Thank you for calling " ++ info.name ++ ". We are " ++
      lowerStr info.hours ++ "."

/-- `RestaurantAIAgent.generate_response` (with `intent_analysis` supplied, as
`get_ai_response` always does): dispatch on `primary_intent`; the final branch
always uses the mock fallback (the OpenAI path is commented out in the
source). -/
def generate_response (info : RestaurantInfo) (user_message : String)
    (intent_analysis : IntentAnalysis) : String :=
  match intent_analysis.primary_intent with
  | Intent.greeting =>
      "Hello! Thank you for calling " ++ info.name ++
        ". How can I assist you today?"
  | Intent.hours_inquiry => "We are " ++ lowerStr info.hours ++ "."
  | Intent.location_inquiry => "We are located at " ++ info.address ++ "."
  | Intent.menu_inquiry =>
      "We offer " ++ String.intercalate ", " info.menu_categories ++
        ". For more details, please speak with our staff."
  | Intent.order_request =>
      "I'd be happy to connect you with our staff who can help you with that."
  | Intent.reservation_request =>
      "I'd be happy to connect you with our staff who can help you with that."
  | Intent.complaint =>
      "I'd be happy to connect you with our staff who can help you with that."
  | Intent.delivery_inquiry => info.delivery_policy ++ "."
  | Intent.closing =>
      "Thank you for calling " ++ info.name ++ ". Have a great day!"
  | Intent.contact_staff =>
      "I'll connect you with our staff who can better assist you."
  | Intent.general_inquiry => generate_mock_response info user_message

/-! ### Call sessions and the registry (`app.py`) -/

/-- One entry of `conversation_history` (`CallSession.add_message`). -/
structure ConversationTurn where
  role : String
  content : String
deriving DecidableEq, Repr

/-- The call-summary record stored by the speech webhook on escalation. -/
structure CallSummary where
  call_sid : String
  caller_phone : String
  final_intent : String
  conversation_length : Nat
  escalation_reason : String
deriving DecidableEq, Repr

/-- `CallSession`: per-call mutable state. `caller_info` is a string-keyed
dictionary (the code only ever uses the `"phone"` key). -/
structure CallSession where
  call_sid : String
  conversation_history : List ConversationTurn
  caller_info : List (String × String)
  escalation_needed : Bool
  call_summary : Option CallSummary
deriving DecidableEq, Repr

/-- `CallSession.__init__`: fresh session with empty history, empty caller
info, `escalation_needed = False`, no summary. -/
def newSession (call_sid : String) : CallSession :=
  { call_sid := call_sid
    conversation_history := []
    caller_info := []
    escalation_needed := false
    call_summary := none }

/-- `CallSession.add_message`: append one turn to `conversation_history`. -/
def addMessage (s : CallSession) (role content : String) : CallSession :=
  { s with conversation_history :=
      s.conversation_history ++ [{ role := role, content := content }] }

/-- The spec's `CallSession.mark_escalation()`; in the source it is the inline
assignment `session.escalation_needed = True` in `get_ai_response`
(`app.py` line 210). -/
def markEscalation (s : CallSession) : CallSession :=
  { s with escalation_needed := true }

/-- The module-level `sessions` dictionary of `app.py`. -/
abbrev Registry := List (String × CallSession)

/-- `get_session`: fetch the session for `call_sid`, creating and registering
a fresh one when absent. Returns the (possibly extended) registry together
with the session. -/
def get_session (sessions : Registry) (call_sid : String) :
    Registry × CallSession :=
  match alistFind sessions call_sid with
  | some s => (sessions, s)
  | none =>
    let s := newSession call_sid
    (alistSet sessions call_sid s, s)

/-- The fixed apology reply of the `except` branch of `get_ai_response`. -/
def apologyText : String :=
  "I apologize, but I'm experiencing technical difficulties. Let me connect you to our staff."

/-- `get_ai_response`: run the classifier and the generator, append the user
and assistant turns, and set the escalation flag when `needs_escalation`
says so. The boolean `fail` models an exception raised inside the `try`
block while computing the reply (a classifier/generator internal error or an
upstream text-generation failure); the `except` branch then returns the fixed
apology text and the session object is left untouched. Returns the reply
together with the updated session. -/
def get_ai_response (info : RestaurantInfo) (fail : Bool)
    (user_message : String) (session : CallSession) : String × CallSession :=
  if fail then (apologyText, session)
  else
    let intent_analysis := analyze_intent user_message
    let ai_response := generate_response info user_message intent_analysis
    let session := addMessage session "user" user_message
    let session := addMessage session "assistant" ai_response
    let session :=
      if needs_escalation intent_analysis then markEscalation session
      else session
    (ai_response, session)

/-! ### TwiML effects (`twilio_integration.py`) -/

/-- One TwiML verb appended to a `VoiceResponse`. `gather` stands for the
speech-gathering verb (its action URL and timeouts are transport
configuration); `dial` carries the number dialled. -/
inductive TwimlVerb where
  | say (message : String)
  | gather
  | dial (number : String)
  | hangup
deriving DecidableEq, Repr

/-- `TwilioHandler.create_greeting_response`. -/
def create_greeting_response (restaurant_name : String) : List TwimlVerb :=
  [TwimlVerb.say ("Hello! Thank you for calling " ++ restaurant_name ++
      ". How can I assist you today?"),
   TwimlVerb.gather]

/-- `TwilioHandler.create_speech_response` (the `call_sid` only parametrises
the gather action URL). -/
def create_speech_response (ai_response : String) (call_sid : String) :
    List TwimlVerb :=
  [TwimlVerb.say ai_response, TwimlVerb.gather]

/-- `TwilioHandler.create_escalation_response`: announce and dial the
restaurant phone. -/
def create_escalation_response (restaurant_phone : String) : List TwimlVerb :=
  [TwimlVerb.say "I'll connect you with our staff who can better assist you.",
   TwimlVerb.say "Transferring you to our staff now.",
   TwimlVerb.dial restaurant_phone]

/-- `TwilioHandler.create_error_response`: say the error, apologise, hang up. -/
def create_error_response (error_message : String) : List TwimlVerb :=
  [TwimlVerb.say error_message,
   TwimlVerb.say "I'm experiencing technical difficulties. Please call back or visit us directly.",
   TwimlVerb.hangup]

/-- `TwilioHandler.create_unclear_response`: ask to repeat and listen again. -/
def create_unclear_response : List TwimlVerb :=
  [TwimlVerb.say "I'm sorry, I couldn't hear that clearly. Could you please repeat?",
   TwimlVerb.gather]

/-! ### Webhook handlers (`app.py`) -/

/-- An inbound webhook form payload: the POSTed string fields
(`form_data.get(key, default)` is `alistGetD`). -/
abbrev Form := List (String × String)

/-- Digit run to a natural number. -/
def digitsToNat (l : List Char) : Nat :=
  l.foldl (fun n c => 10 * n + (c.toNat - 48)) 0

/-- The exact value of a parsed decimal literal, `mantissa / 10 ^ scale`.
Kept as an integer pair so that the kernel can evaluate it (rational
normalisation does not kernel-reduce). -/
structure PyFloat where
  mantissa : Int
  scale : Nat
deriving DecidableEq, Repr

/-- The rational value a `PyFloat` denotes. -/
def PyFloat.toRat (f : PyFloat) : ℚ :=
  (f.mantissa : ℚ) / (10 : ℚ) ^ f.scale

/-- The comparison `float(confidence) < 0.5` of the speech webhook, phrased
on the integer mantissa: `mantissa / 10 ^ scale < 1 / 2` iff
`2 * mantissa < 10 ^ scale` (see `PyFloat.ltHalf_iff`). -/
def PyFloat.ltHalf (f : PyFloat) : Bool :=
  decide (2 * f.mantissa < 10 ^ f.scale)

/-- Models the Python builtin `float()` on the optionally-signed plain decimal
literals this program receives as `Confidence` values (e.g. `"0.95"`,
`"0.0"`). Strings outside that fragment yield `none`, modelling the
`ValueError` that `float()` raises on such input. -/
def pyFloat (s : String) : Option PyFloat :=
  let l := s.data
  let signed : Int × List Char :=
    match l with
    | '-' :: rest => (-1, rest)
    | '+' :: rest => (1, rest)
    | _ => (1, l)
  let sign := signed.1
  let body := signed.2
  let intPart := body.takeWhile (fun c => c.isDigit)
  let rest := body.dropWhile (fun c => c.isDigit)
  match rest with
  | [] =>
    if intPart.isEmpty then none
    else some { mantissa := sign * (digitsToNat intPart : Int), scale := 0 }
  | '.' :: frac =>
    if frac.all (fun c => c.isDigit) && !(intPart.isEmpty && frac.isEmpty) then
      some { mantissa := sign * ((digitsToNat intPart : Int) *
               (10 : Int) ^ frac.length + (digitsToNat frac : Int))
             scale := frac.length }
    else none
  | _ => none

/-- `handle_twilio_voice_webhook`: the whole body is wrapped in
`try/except`. `malformed` models a payload on which reading the request form
raises; the `except` branch answers with its own say-only `VoiceResponse`
(it does not use `create_error_response` and appends no hangup). Otherwise
the session is created/fetched, the caller phone recorded, and the greeting
TwiML returned. -/
def handle_twilio_voice_webhook (info : RestaurantInfo) (malformed : Bool)
    (form : Form) (sessions : Registry) : List TwimlVerb × Registry :=
  if malformed then
    ([TwimlVerb.say "Sorry, there was an error processing your call. Please try again later."],
     sessions)
  else
    let call_sid := alistGetD form "CallSid" ""
    let from_number := alistGetD form "From" ""
    let fetched := get_session sessions call_sid
    let session := { fetched.2 with
      caller_info := alistSet fetched.2.caller_info "phone" from_number }
    (create_greeting_response info.name,
     alistSet fetched.1 call_sid session)

/-- `handle_twilio_speech_webhook`. There is no `try/except` here: when
`SpeechResult` is non-empty and `Confidence` does not parse as a float, the
expression `float(confidence)` raises an uncaught `ValueError`, modelled by
`Except.error` (note Python's `or` short-circuits, so an empty
`SpeechResult` avoids the parse). Otherwise: low confidence or empty text
answers with the unclear prompt; usable text runs `get_ai_response`, then
either the escalation TwiML (storing the call summary) or the normal
speak-and-listen TwiML. The registry reflects the in-place mutations of the
session object. -/
def handle_twilio_speech_webhook (info : RestaurantInfo) (fail : Bool)
    (form : Form) (sessions : Registry) :
    Except String (List TwimlVerb) × Registry :=
  let call_sid := alistGetD form "CallSid" ""
  let speech_result := alistGetD form "SpeechResult" ""
  let confidence := alistGetD form "Confidence" "0.0"
  let fetched := get_session sessions call_sid
  let sessions1 := fetched.1
  let session := fetched.2
  if speech_result = "" then
    (Except.ok create_unclear_response, sessions1)
  else
    match pyFloat confidence with
    | none =>
      (Except.error "ValueError: could not convert string to float", sessions1)
    | some conf =>
      if conf.ltHalf then
        (Except.ok create_unclear_response, sessions1)
      else
        let replied := get_ai_response info fail speech_result session
        let ai_response := replied.1
        let session2 := replied.2
        if session2.escalation_needed then
          let summary : CallSummary :=
            { call_sid := call_sid
              caller_phone := alistGetD session2.caller_info "phone" "Unknown"
              final_intent := "Escalated to human"
              conversation_length := session2.conversation_history.length
              escalation_reason := "Order/Reservation/Complaint detected" }
          let session3 := { session2 with call_summary := some summary }
          (Except.ok (create_escalation_response info.phone),
           alistSet sessions1 call_sid session3)
        else
          (Except.ok (create_speech_response ai_response call_sid),
           alistSet sessions1 call_sid session2)

/-- The final summary record logged by the status webhook when a call ends. -/
structure FinalSummary where
  call_sid : String
  caller_phone : String
  call_status : String
  conversation_length : Nat
  escalated : Bool
  summary : Option CallSummary
deriving DecidableEq, Repr

/-- The terminal call statuses checked by `handle_twilio_status_webhook`. -/
def terminalStatuses : List String :=
  ["completed", "busy", "failed", "no-answer"]

/-- `handle_twilio_status_webhook`: on a terminal status for a registered
call, build the final summary (returned here as the logged record) and delete
the session; otherwise do nothing. Always answers the plain text `"OK"`. -/
def handle_twilio_status_webhook (form : Form) (sessions : Registry) :
    String × Registry × Option FinalSummary :=
  let call_sid := alistGetD form "CallSid" ""
  let call_status := alistGetD form "CallStatus" ""
  let from_number := alistGetD form "From" ""
  if call_status ∈ terminalStatuses then
    match alistFind sessions call_sid with
    | some session =>
      let summary : FinalSummary :=
        { call_sid := call_sid
          caller_phone := from_number
          call_status := call_status
          conversation_length := session.conversation_history.length
          escalated := session.escalation_needed
          summary := session.call_summary }
      ("OK", alistErase sessions call_sid, some summary)
    | none => ("OK", sessions, none)
  else
    ("OK", sessions, none)

instance : DecidableEq (Except String (List TwimlVerb)) := fun a b =>
  match a, b with
  | Except.ok x, Except.ok y =>
    if h : x = y then isTrue (by rw [h]) else isFalse (fun hc => h (by injection hc))
  | Except.error x, Except.error y =>
    if h : x = y then isTrue (by rw [h]) else isFalse (fun hc => h (by injection hc))
  | Except.ok _, Except.error _ => isFalse (fun hc => Except.noConfusion hc)
  | Except.error _, Except.ok _ => isFalse (fun hc => Except.noConfusion hc)

/-! ### Helper lemmas -/

/-- The integer comparison `PyFloat.ltHalf` is exactly `< 1/2` on the
denoted rational value. -/
theorem PyFloat.ltHalf_iff (f : PyFloat) : f.ltHalf = true ↔ f.toRat < 1 / 2 := by
  rw [PyFloat.ltHalf, PyFloat.toRat, decide_eq_true_eq,
    div_lt_div_iff (by positivity) (by norm_num : (0 : ℚ) < 2), one_mul,
    mul_comm (f.mantissa : ℚ) 2]
  exact_mod_cast Iff.rfl

theorem alistFind_set {α : Type} (l : List (String × α)) (k k' : String) (v : α) :
    alistFind (alistSet l k v) k' = if k' = k then some v else alistFind l k' := by
  induction l with
  | nil =>
    by_cases h : k' = k
    · simp [alistSet, alistFind, h]
    · simp [alistSet, alistFind, h, Ne.symm h]
  | cons p rest ih =>
    obtain ⟨pk, pv⟩ := p
    by_cases hpk : pk = k
    · subst hpk
      by_cases h : k' = pk
      · simp [alistSet, alistFind, h]
      · simp [alistSet, alistFind, h, Ne.symm h]
    · by_cases h : k' = k
      · subst h
        simp [alistSet, alistFind, hpk, ih]
      · simp [alistSet, alistFind, hpk, h, ih]

theorem alistFind_set_self {α : Type} (l : List (String × α)) (k : String)
    (v : α) : alistFind (alistSet l k v) k = some v := by
  rw [alistFind_set, if_pos rfl]

theorem alistFind_erase {α : Type} (l : List (String × α)) (k k' : String) :
    alistFind (alistErase l k) k' = if k' = k then none else alistFind l k' := by
  induction l with
  | nil =>
    by_cases h : k' = k <;> simp [alistErase, alistFind, h]
  | cons p rest ih =>
    obtain ⟨pk, pv⟩ := p
    by_cases hpk : pk = k <;> by_cases h : k' = k <;> by_cases hp : pk = k' <;>
      simp_all [alistErase, alistFind, List.filter_cons]

/-- The session `get_session` hands out is registered under its id. -/
theorem alistFind_get_session (sessions : Registry) (sid : String) :
    alistFind (get_session sessions sid).1 sid = some (get_session sessions sid).2 := by
  unfold get_session
  cases h : alistFind sessions sid with
  | some s => simpa [h] using h
  | none => simp [h, alistFind_set]

/-- A session already registered is returned unchanged by `get_session`. -/
theorem get_session_of_find {sessions : Registry} {sid : String} {s : CallSession}
    (h : alistFind sessions sid = some s) :
    get_session sessions sid = (sessions, s) := by
  unfold get_session
  rw [h]

/-! Nested-loop lemmas for the classifier. -/

theorem mem_noteIntent {m : String} {i0 : Intent} {acc : List Intent}
    {kw : String} {i : Intent} (h : i ∈ acc) : i ∈ noteIntent m i0 acc kw := by
  unfold noteIntent
  split_ifs <;> simp [h]

theorem mem_foldl_noteIntent {m : String} {i0 : Intent} {kws : List String}
    {acc :
 List Intent} {i : Intent} (h : i ∈ acc) :
    i ∈ kws.foldl (noteIntent m i0) acc := by
  induction kws generalizing acc with
  | nil => exact h
  | cons kw rest ih => exact ih (mem_noteIntent h)

theorem foldl_noteIntent_self {m : String} {i0 : Intent} {kws : List String}
    {acc : List Intent} (h : ∃ kw ∈ kws, strContains m kw = true) :
    i0 ∈ kws.foldl (noteIntent m i0) acc := by
  induction kws generalizing acc with
  | nil => simp at h
  | cons kw rest ih =>
    obtain ⟨kw', hkw', hc⟩ := h
    rw [List.foldl_cons]
    rcases List.mem_cons.1 hkw' with rfl | hmem
    · refine @mem_foldl_noteIntent m i0 rest _ _ ?_
      unfold noteIntent
      rw [hc]
      by_cases hin : i0 ∈ acc <;> simp [hin]
    · exact ih ⟨kw', hmem, hc⟩

theorem foldl_noteIntent_of_not_matched {m : String} {i0 : Intent}
    {kws : List String} {acc : List Intent}
    (h : ∀ kw ∈ kws, strContains m kw = false) :
    kws.foldl (noteIntent m i0) acc = acc := by
  induction kws generalizing acc with
  | nil => rfl
  | cons kw rest ih =>
    have h0 : strContains m kw = false := h kw (List.mem_cons_self kw rest)
    have hstep : noteIntent m i0 acc kw = acc := by
      unfold noteIntent
      rw [h0]
      simp
    rw [List.foldl_cons, hstep]
    exact ih (fun kw' hkw' => h kw' (List.mem_cons_of_mem kw hkw'))

theorem noteIntent_eq_or (m : String) (i0 : Intent) (acc : List Intent)
    (kw : String) :
    noteIntent m i0 acc kw = acc ∨ noteIntent m i0 acc kw = acc ++ [i0] := by
  unfold noteIntent
  split_ifs <;> simp

theorem head?_noteIntent (m : String) (i0 : Intent) (acc : List Intent)
    (kw : String) (h : acc ≠ []) :
    (noteIntent m i0 acc kw).head? = acc.head? ∧ noteIntent m i0 acc kw ≠ [] := by
  rcases noteIntent_eq_or m i0 acc kw with he | he <;> rw [he]
  · exact ⟨rfl, h⟩
  · cases acc with
    | nil => exact absurd rfl h
    | cons a t => simp

theorem head?_foldl_noteIntent {m : String} {i0 : Intent} {kws : List String}
    {acc : List Intent} (h : acc ≠ []) :
    (kws.foldl (noteIntent m i0) acc).head? = acc.head? ∧
      kws.foldl (noteIntent m i0) acc ≠ [] := by
  induction kws generalizing acc with
  | nil => exact ⟨rfl, h⟩
  | cons kw rest ih =>
    obtain ⟨h1, h2⟩ := head?_noteIntent m i0 acc kw h
    obtain ⟨h3, h4⟩ := ih h2
    exact ⟨h3.trans h1, h4⟩

theorem mem_foldl_noteIntent_elim {m : String} {i0 : Intent} {kws : List String}
    {acc : List Intent} {i : Intent}
    (h : i ∈ kws.foldl (noteIntent m i0) acc) : i ∈ acc ∨ i = i0 := by
  induction kws generalizing acc with
  | nil => exact Or.inl h
  | cons kw rest ih =>
    rcases ih h with hmem | heq
    · rcases noteIntent_eq_or m i0 acc kw with he | he <;> rw [he] at hmem
      · exact Or.inl hmem
      · rcases List.mem_append.1 hmem with h' | h'
        · exact Or.inl h'
        · simp at h'
          exact Or.inr h'
    · exact Or.inr heq

theorem mem_detectStep {m : String} {acc : List Intent}
    {e : Intent × List String} {i : Intent} (h : i ∈ acc) :
    i ∈ detectStep m acc e :=
  mem_foldl_noteIntent h

theorem mem_detectStep_elim {m : String} {acc : List Intent}
    {e : Intent × List String} {i : Intent} (h : i ∈ detectStep m acc e) :
    i ∈ acc ∨ i = e.1 :=
  mem_foldl_noteIntent_elim h

theorem head?_detectStep {m : String} {acc : List Intent}
    {e : Intent × List String} (h : acc ≠ []) :
    (detectStep m acc e).head? = acc.head? ∧ detectStep m acc e ≠ [] :=
  head?_foldl_noteIntent h

theorem mem_foldl_detectStep {m : String} {table : List (Intent × List String)}
    {acc : List Intent} {i : Intent} (h : i ∈ acc) :
    i ∈ table.foldl (detectStep m) acc := by
  induction table generalizing acc with
  | nil => exact h
  | cons e rest ih => exact ih (mem_detectStep h)

theorem head?_foldl_detectStep {m : String} {table : List (Intent × List String)}
    {acc : List Intent} (h : acc ≠ []) :
    (table.foldl (detectStep m) acc).head? = acc.head? ∧
      table.foldl (detectStep m) acc ≠ [] := by
  induction table generalizing acc with
  | nil => exact ⟨rfl, h⟩
  | cons e rest ih =>
    obtain ⟨h1, h2⟩ := head?_detectStep (e := e) h
    obtain ⟨h3, h4⟩ := ih h2
    exact ⟨h3.trans h1, h4⟩

theorem mem_foldl_detectStep_elim {m : String}
    {table : List (Intent × List String)} {acc : List Intent} {i : Intent}
    (h : i ∈ table.foldl (detectStep m) acc) :
    i ∈ acc ∨ ∃ e ∈ table, i = e.1 := by
  induction table generalizing acc with
  | nil => exact Or.inl h
  | cons e rest ih =>
    rcases ih h with hmem | ⟨e', he', heq⟩
    · rcases mem_detectStep_elim hmem with h' | h'
      · exact Or.inl h'
      · exact Or.inr ⟨e, List.mem_cons_self e rest, h'⟩
    · exact Or.inr ⟨e', List.mem_cons_of_mem e he', heq⟩

theorem detect_mem_of_matched {m : String} {table : List (Intent × List String)}
    {acc : List Intent} {e : Intent × List String} (he : e ∈ table)
    (h : ∃ kw ∈ e.2, strContains m kw = true) :
    e.1 ∈ table.foldl (detectStep m) acc := by
  induction table generalizing acc with
  | nil => cases he
  | cons e0 rest ih =>
    rw [List.foldl_cons]
    rcases List.mem_cons.1 he with rfl | hmem
    · exact @mem_foldl_detectStep m rest _ _ (foldl_noteIntent_self h)
    · exact ih hmem

/-- `general_inquiry` is never among the intents the keyword loops detect. -/
theorem general_not_mem_detectIntents (m : String) :
    Intent.general_inquiry ∉ detectIntents m := by
  intro h
  rcases mem_foldl_detectStep_elim h with h' | ⟨e, he, heq⟩
  · simp at h'
  · simp only [intentKeywords, List.mem_cons] at he
    rcases he with rfl | rfl | rfl | rfl | rfl | rfl | rfl | rfl | rfl | rfl | he
    all_goals simp_all

/-! Path lemmas for `get_ai_response` and the speech webhook. -/

theorem get_ai_response_fail (info : RestaurantInfo) (msg : String)
    (s : CallSession) : get_ai_response info true msg s = (apologyText, s) :=
  rfl

theorem get_ai_response_no_escalation (info : RestaurantInfo) (msg : String)
    (s : CallSession) (h : (analyze_intent msg).escalation_needed = false) :
    get_ai_response info false msg s =
      (generate_response info msg (analyze_intent msg),
       addMessage (addMessage s "user" msg) "assistant"
         (generate_response info msg (analyze_intent msg))) := by
  unfold get_ai_response needs_escalation
  simp [h]

theorem get_ai_response_escalation (info : RestaurantInfo) (msg : String)
    (s : CallSession) (h : (analyze_intent msg).escalation_needed = true) :
    get_ai_response info false msg s =
      (generate_response info msg (analyze_intent msg),
       markEscalation (addMessage (addMessage s "user" msg) "assistant"
         (generate_response info msg (analyze_intent msg)))) := by
  unfold get_ai_response needs_escalation
  simp [h]

/-- `get_ai_response` never lowers the escalation flag. -/
theorem get_ai_response_escalation_mono (info : RestaurantInfo) (fail : Bool)
    (msg : String) (s : CallSession) (h : s.escalation_needed = true) :
    ((get_ai_response info fail msg s).2).escalation_needed = true := by
  unfold get_ai_response needs_escalation
  cases fail with
  | true => simpa using h
  | false =>
    by_cases he : (analyze_intent msg).escalation_needed = true <;>
      simp [he, markEscalation, addMessage, h]

/-- `get_ai_response` never touches `caller_info`. -/
theorem get_ai_response_caller_info (info : RestaurantInfo) (fail : Bool)
    (msg : String) (s : CallSession) :
    ((get_ai_response info fail msg s).2).caller_info = s.caller_info := by
  unfold get_ai_response needs_escalation
  cases fail with
  | true => rfl
  | false =>
    by_cases he : (analyze_intent msg).escalation_needed = true <;>
      simp [he, markEscalation, addMessage]

theorem speech_webhook_clarify (info : RestaurantInfo) (fail : Bool)
    (form : Form) (sessions : Registry)
    (h : alistGetD form "SpeechResult" "" = "" ∨
      ∃ c, pyFloat (alistGetD form "Confidence" "0.0") = some c ∧
        c.ltHalf = true) :
    handle_twilio_speech_webhook info fail form sessions =
      (Except.ok create_unclear_response,
       (get_session sessions (alistGetD form "CallSid" "")).1) := by
  unfold handle_twilio_speech_webhook
  rcases h with h | ⟨c, hc, hlt⟩
  · simp [h]
  · by_cases hs : alistGetD form "SpeechResult" "" = ""
    · simp [hs]
    · simp [hs, hc, hlt]

theorem speech_webhook_error (info : RestaurantInfo) (fail : Bool) (form : Form)
    (sessions : Registry)
    (hn : alistGetD form "SpeechResult" "" ≠ "")
    (hc : pyFloat (alistGetD form "Confidence" "0.0") = none) :
    handle_twilio_speech_webhook info fail form sessions =
      (Except.error "ValueError: could not convert string to float",
       (get_session sessions (alistGetD form "CallSid" "")).1) := by
  unfold handle_twilio_speech_webhook
  simp [hn, hc]

theorem speech_webhook_respond (info : RestaurantInfo) (fail : Bool)
    (form : Form) (sessions : Registry) (c : PyFloat)
    (hn : alistGetD form "SpeechResult" "" ≠ "")
    (hc : pyFloat (alistGetD form "Confidence" "0.0") = some c)
    (hlow : c.ltHalf = false)
    (hne : ((get_ai_response info fail (alistGetD form "SpeechResult" "")
      (get_session sessions (alistGetD form "CallSid" "")).2).2).escalation_needed
        = false) :
    handle_twilio_speech_webhook info fail form sessions =
      (Except.ok (create_speech_response
          (get_ai_response info fail (alistGetD form "SpeechResult" "")
            (get_session sessions (alistGetD form "CallSid" "")).2).1
          (alistGetD form "CallSid" "")),
       alistSet (get_session sessions (alistGetD form "CallSid" "")).1
         (alistGetD form "CallSid" "")
         (get_ai_response info fail (alistGetD form "SpeechResult" "")
           (get_session sessions (alistGetD form "CallSid" "")).2).2) := by
  unfold handle_twilio_speech_webhook
  simp [hn, hc, hlow, hne]

theorem speech_webhook_escalate (info : RestaurantInfo) (fail : Bool)
    (form : Form) (sessions : Registry) (c : PyFloat)
    (hn : alistGetD form "SpeechResult" "" ≠ "")
    (hc : pyFloat (alistGetD form "Confidence" "0.0") = some c)
    (hlow : c.ltHalf = false)
    (hesc : ((get_ai_response info fail (alistGetD form "SpeechResult" "")
      (get_session sessions (alistGetD form "CallSid" "")).2).2).escalation_needed
        = true) :
    handle_twilio_speech_webhook info fail form sessions =
      (Except.ok (create_escalation_response info.phone),
       alistSet (get_session sessions (alistGetD form "CallSid" "")).1
         (alistGetD form "CallSid" "")
         { (get_ai_response info fail (alistGetD form "SpeechResult" "")
             (get_session sessions (alistGetD form "CallSid" "")).2).2 with
           call_summary := some
             { call_sid := alistGetD form "CallSid" ""
               caller_phone := alistGetD
                 ((get_ai_response info fail (alistGetD form "SpeechResult" "")
                   (get_session sessions (alistGetD form "CallSid" "")).2).2).caller_info
                 "phone" "Unknown"
               final_intent := "Escalated to human"
               conversation_length :=
                 ((get_ai_response info fail (alistGetD form "SpeechResult" "")
                   (get_session sessions (alistGetD form "CallSid" "")).2).2).conversation_history.length
               escalation_reason := "Order/Reservation/Complaint detected" } }) := by
  unfold handle_twilio_speech_webhook
  simp [hn, hc, hlow, hesc]

theorem data_append_str (a b : String) : (a ++ b).data = a.data ++ b.data := by
  cases a
  cases b
  rfl

theorem data_head_append {p : String} (x : String) {c : Char}
    (hp : p.data.head? = some c) : (p ++ x).data.head? = some c := by
  rw [data_append_str]
  cases hpd : p.data with
  | nil =>
    rw [hpd] at hp
    exact absurd hp (by simp)
  | cons a t =>
    rw [hpd] at hp
    simpa using hp

theorem ne_of_head_data {a b : String} {c d : Char}
    (ha : a.data.head? = some c) (hb : b.data.head? = some d) (hcd : c ≠ d) :
    a ≠ b := by
  intro he
  rw [he, hb] at ha
  injection ha with h1
  exact hcd h1.symm

theorem get_session_fst_of_find {sessions : Registry} {sid : String}
    {s : CallSession} (h : alistFind sessions sid = some s) :
    (get_session sessions sid).1 = sessions := by
  unfold get_session
  rw [h]

theorem get_session_snd_of_find {sessions : Registry} {sid : String}
    {s : CallSession} (h : alistFind sessions sid = some s) :
    (get_session sessions sid).2 = s := by
  unfold get_session
  rw [h]

theorem alistFind_get_session_ne (sessions : Registry) {sid k : String}
    (h : sid ≠ k) :
    alistFind (get_session sessions k).1 sid = alistFind sessions sid := by
  unfold get_session
  cases hgf : alistFind sessions k with
  | some t => rfl
  | none => simp [alistFind_set, h]

/-- The speech webhook either leaves the registry as `get_session` produced
it, or overwrites the current call's entry with the session
`get_ai_response` returned (with, possibly, a summary attached that does not
change the escalation flag). -/
theorem speech_webhook_registry_cases (info : RestaurantInfo) (fail : Bool)
    (form : Form) (sessions : Registry) :
    (handle_twilio_speech_webhook info fail form sessions).2 =
        (get_session sessions (alistGetD form "CallSid" "")).1 ∨
    ∃ s2 : CallSession,
      (handle_twilio_speech_webhook info fail form sessions).2 =
        alistSet (get_session sessions (alistGetD form "CallSid" "")).1
          (alistGetD form "CallSid" "") s2 ∧
      s2.escalation_needed =
        ((get_ai_response info fail (alistGetD form "SpeechResult" "")
          (get_session sessions (alistGetD form "CallSid" "")).2).2).escalation_needed := by
  by_cases h1 : alistGetD form "SpeechResult" "" = ""
  · rw [speech_webhook_clarify info fail form sessions (Or.inl h1)]
    exact Or.inl rfl
  · cases hc : pyFloat (alistGetD form "Confidence" "0.0") with
    | none =>
      rw [speech_webhook_error info fail form sessions h1 hc]
      exact Or.inl rfl
    | some c =>
      cases hl : c.ltHalf with
      | true =>
        rw [speech_webhook_clarify info fail form sessions (Or.inr ⟨c, hc, hl⟩)]
        exact Or.inl rfl
      | false =>
        cases he : ((get_ai_response info fail (alistGetD form "SpeechResult" "")
            (get_session sessions (alistGetD form "CallSid" "")).2).2).escalation_needed with
        | false =>
          rw [speech_webhook_respond info fail form sessions c h1 hc hl he]
          exact Or.inr ⟨_, rfl, he⟩
        | true =>
          rw [speech_webhook_escalate info fail form sessions c h1 hc hl he]
          exact Or.inr ⟨_, rfl, he⟩

/-! ### Claim theorems -/

/-- Claim C1: for every utterance, the `IntentAnalysis` returned by
`analyze_intent` has `escalation_needed = true` if and only if
`all_detected_intents` contains at least one of `order_request`,
`reservation_request`, `complaint`, `contact_staff` (the list
`escalationIntents`); in particular it is `false` when the only detected
intent is `general_inquiry`. -/
theorem analyze_intent_escalation_iff (msg : String) :
    ((analyze_intent msg).escalation_needed = true ↔
      ∃ i ∈ (analyze_intent msg).all_detected_intents, i ∈ escalationIntents) ∧
    ((analyze_intent msg).all_detected_intents = [Intent.general_inquiry] →
      (analyze_intent msg).escalation_needed = false) := by
  constructor
  · simp [analyze_intent, List.any_eq_true]
  · intro hgen
    cases hes : (analyze_intent msg).escalation_needed with
    | false => rfl
    | true =>
      exfalso
      obtain ⟨i, hi, hmem⟩ := (by
        simpa [analyze_intent, List.any_eq_true] using hes :
          ∃ i ∈ (analyze_intent msg).all_detected_intents, i ∈ escalationIntents)
      rw [hgen] at hi
      simp at hi
      rw [hi] at hmem
      simp [escalationIntents] at hmem

/-- Claim C1 witness: an utterance with no keyword detects only
`general_inquiry` and does not escalate. -/
theorem analyze_intent_escalation_iff_witness :
    (analyze_intent "qqq").all_detected_intents = [Intent.general_inquiry] ∧
    (analyze_intent "qqq").escalation_needed = false :=
  ⟨by decide, (analyze_intent_escalation_iff "qqq").2 (by decide)⟩

/-- Claim C8: an utterance matching some `hours_inquiry` keyword and no
keyword of the (higher-priority) `greeting` intent is classified with
`primary_intent = hours_inquiry`. -/
theorem hours_primary_intent (msg : String)
    (hh : ∃ kw ∈ hoursKeywords, strContains (lowerStr msg) kw = true)
    (hg : ∀ kw ∈ greetingKeywords, strContains (lowerStr msg) kw = false) :
    (analyze_intent msg).primary_intent = Intent.hours_inquiry := by
  have h1 : detectStep (lowerStr msg) [] (Intent.greeting, greetingKeywords) = [] :=
    foldl_noteIntent_of_not_matched hg
  have h2 : Intent.hours_inquiry ∈
      detectStep (lowerStr msg) [] (Intent.hours_inquiry, hoursKeywords) :=
    foldl_noteIntent_self hh
  have hne : detectStep (lowerStr msg) [] (Intent.hours_inquiry, hoursKeywords) ≠ [] := by
    intro hnil
    rw [hnil] at h2
    simp at h2
  have hall : ∀ i ∈ detectStep (lowerStr msg) [] (Intent.hours_inquiry, hoursKeywords),
      i = Intent.hours_inquiry := by
    intro i hi
    refine (mem_detectStep_elim hi).resolve_left ?_
    simp
  have hhd : (detectStep (lowerStr msg) [] (Intent.hours_inquiry, hoursKeywords)).head?
      = some Intent.hours_inquiry := by
    cases hd : detectStep (lowerStr msg) [] (Intent.hours_inquiry, hoursKeywords) with
    | nil => exact absurd hd hne
    | cons a t =>
      have ha : a = Intent.hours_inquiry := by
        refine hall a ?_
        rw [hd]
        exact List.mem_cons_self a t
      rw [ha]
      rfl
  have hsplit : detectIntents (lowerStr msg) =
      ([(Intent.location_inquiry, locationKeywords),
        (Intent.menu_inquiry, menuKeywords),
        (Intent.order_request, orderKeywords),
        (Intent.reservation_request, reservationKeywords),
        (Intent.complaint, complaintKeywords),
        (Intent.delivery_inquiry, deliveryKeywords),
        (Intent.closing, closingKeywords),
        (Intent.contact_staff, contactStaffKeywords)]).foldl
          (detectStep (lowerStr msg))
          (detectStep (lowerStr msg)
            (detectStep (lowerStr msg) [] (Intent.greeting, greetingKeywords))
            (Intent.hours_inquiry, hoursKeywords)) := rfl
  rw [h1] at hsplit
  obtain ⟨hfh, hfne⟩ := @head?_foldl_detectStep (lowerStr msg)
    [(Intent.location_inquiry, locationKeywords),
      (Intent.menu_inquiry, menuKeywords),
      (Intent.order_request, orderKeywords),
      (Intent.reservation_request, reservationKeywords),
      (Intent.complaint, complaintKeywords),
      (Intent.delivery_inquiry, deliveryKeywords),
      (Intent.closing, closingKeywords),
      (Intent.contact_staff, contactStaffKeywords)] _ hne
  have hdi_ne : detectIntents (lowerStr msg) ≠ [] := by
    rw [hsplit]
    exact hfne
  have hdi_hd : (detectIntents (lowerStr msg)).head? = some Intent.hours_inquiry := by
    rw [hsplit, hfh, hhd]
  simp only [analyze_intent]
  rw [if_neg hdi_ne, List.headD_eq_head?, hdi_hd]
  rfl

/-- Claim C8 witness: the scenario utterance. -/
theorem hours_primary_intent_witness :
    (∃ kw ∈ hoursKeywords, strContains (lowerStr "What time do you open?") kw = true) ∧
    (∀ kw ∈ greetingKeywords, strContains (lowerStr "What time do you open?") kw = false) ∧
    (analyze_intent "What time do you open?").primary_intent = Intent.hours_inquiry :=
  ⟨by decide, by decide,
   hours_primary_intent "What time do you open?" (by decide) (by decide)⟩

/-- Claim C2: per-session escalation is monotonic: a fresh session starts
with `escalation_needed = false`, marking escalation is idempotent and sets
the flag, `get_ai_response` never clears a set flag, and no speech-webhook
event lowers the flag of any live registered session. -/
theorem session_escalation_monotonic :
    (∀ sid, (newSession sid).escalation_needed = false) ∧
    (∀ s, markEscalation (markEscalation s) = markEscalation s ∧
      (markEscalation s).escalation_needed = true) ∧
    (∀ (info : RestaurantInfo) (fail : Bool) (msg : String) (s : CallSession),
      s.escalation_needed = true →
      ((get_ai_response info fail msg s).2).escalation_needed = true) ∧
    (∀ (info : RestaurantInfo) (fail : Bool) (form : Form) (sessions : Registry)
      (sid : String) (s s' : CallSession),
      alistFind sessions sid = some s → s.escalation_needed = true →
      alistFind (handle_twilio_speech_webhook info fail form sessions).2 sid
        = some s' →
      s'.escalation_needed = true) ∧
    (∀ (info : RestaurantInfo) (malformed : Bool) (form : Form)
      (sessions : Registry) (sid : String) (s s' : CallSession),
      alistFind sessions sid = some s → s.escalation_needed = true →
      alistFind (handle_twilio_voice_webhook info malformed form sessions).2 sid
        = some s' →
      s'.escalation_needed = true) := by
  refine ⟨fun sid => rfl, fun s => ⟨rfl, rfl⟩, get_ai_response_escalation_mono,
    ?_, ?_⟩
  · intro info fail form sessions sid s s' hfind hesc hfind'
    rcases speech_webhook_registry_cases info fail form sessions with hreg | ⟨s2, hreg, hs2⟩
    · rw [hreg] at hfind'
      by_cases hsid : sid = alistGetD form "CallSid" ""
      · subst hsid
        rw [get_session_fst_of_find hfind, hfind] at hfind'
        injection hfind' with h2
        rw [← h2]
        exact hesc
      · rw [alistFind_get_session_ne sessions hsid, hfind] at hfind'
        injection hfind' with h2
        rw [← h2]
        exact hesc
    · rw [hreg, alistFind_set] at hfind'
      by_cases hsid : sid = alistGetD form "CallSid" ""
      · rw [if_pos hsid] at hfind'
        injection hfind' with h2
        rw [← h2, hs2]
        apply get_ai_response_escalation_mono
        rw [hsid] at hfind
        rw [get_session_snd_of_find hfind]
        exact hesc
      · rw [if_neg hsid, alistFind_get_session_ne sessions hsid, hfind] at hfind'
        injection hfind' with h2
        rw [← h2]
        exact hesc
  · intro info malformed form sessions sid s s' hfind hesc hfind'
    cases malformed with
    | true =>
      have hreg : (handle_twilio_voice_webhook info true form sessions).2
          = sessions := rfl
      rw [hreg, hfind] at hfind'
      injection hfind' with h2
      rw [← h2]
      exact hesc
    | false =>
      have hreg : (handle_twilio_voice_webhook info false form sessions).2
          = alistSet (get_session sessions (alistGetD form "CallSid" "")).1
            (alistGetD form "CallSid" "")
            { (get_session sessions (alistGetD form "CallSid" "")).2 with
              caller_info := alistSet
                (get_session sessions (alistGetD form "CallSid" "")).2.caller_info
                "phone" (alistGetD form "From" "") } := by
        simp [handle_twilio_voice_webhook]
      rw [hreg, alistFind_set] at hfind'
      by_cases hsid : sid = alistGetD form "CallSid" ""
      · rw [if_pos hsid] at hfind'
        injection hfind' with h2
        rw [← h2]
        show (get_session sessions
          (alistGetD form "CallSid" "")).2.escalation_needed = true
        rw [hsid] at hfind
        rw [get_session_snd_of_find hfind]
        exact hesc
      · rw [if_neg hsid, alistFind_get_session_ne sessions hsid, hfind] at hfind'
        injection hfind' with h2
        rw [← h2]
        exact hesc

/-- Claim C2 witness: a turn on an already-escalated registered session
leaves the flag set. -/
theorem session_escalation_monotonic_witness :
    alistFind [("CA1", markEscalation (newSession "CA1"))] "CA1"
      = some (markEscalation (newSession "CA1")) ∧
    (markEscalation (newSession "CA1")).escalation_needed = true ∧
    ((handle_twilio_speech_webhook defaultFacts false
        [("CallSid", "CA1"), ("SpeechResult", "hello"), ("Confidence", "0.9")]
        [("CA1", markEscalation (newSession "CA1"))]).2.headD
          ("", newSession "none")).2.escalation_needed = true :=
  ⟨by decide, by decide,
   session_escalation_monotonic.2.2.2.1 defaultFacts false
     [("CallSid", "CA1"), ("SpeechResult", "hello"), ("Confidence", "0.9")]
     [("CA1", markEscalation (newSession "CA1"))] "CA1"
     (markEscalation (newSession "CA1")) _ (by decide) (by decide) (by decide)⟩

/-- Claim C10: whenever `generate_response` (applied to the analysis of the
same utterance) reaches the mock fallback branch, the lower-cased utterance
can contain neither `"order"` nor `"delivery"`, so the fallback's
staff-transfer sentence is never returned; the reachable fallback outcomes
are only the hours, address, menu, and default greeting-plus-hours
sentences. -/
theorem fallback_order_unreachable (info : RestaurantInfo) (msg : String)
    (h : (analyze_intent msg).primary_intent = Intent.general_inquiry) :
    strContains (lowerStr msg) "order" = false ∧
    strContains (lowerStr msg) "delivery" = false ∧
    generate_response info msg (analyze_intent msg) ≠
      "I'd be happy to connect you with our staff who can help you place your order." ∧
    (generate_response info msg (analyze_intent msg)
        = "We are " ++ lowerStr info.hours ++ "." ∨
     generate_response info msg (analyze_intent msg)
        = "We are located at " ++ info.address ++ "." ∨
     generate_response info msg (analyze_intent msg)
        = "We offer " ++ String.intercalate ", " info.menu_categories ++ "." ∨
     generate_response info msg (analyze_intent msg)
        = "Thank you for calling " ++ info.name ++ ". We are "
            ++ lowerStr info.hours ++ ".") := by
  have hempty : detectIntents (lowerStr msg) = [] := by
    cases hd : detectIntents (lowerStr msg) with
    | nil => rfl
    | cons a t =>
      exfalso
      have hpa : (analyze_intent msg).primary_intent = a := by
        simp only [analyze_intent]
        rw [hd]
        simp
      have hmem : a ∈ detectIntents (lowerStr msg) := by
        rw [hd]
        exact List.mem_cons_self a t
      rw [hpa] at h
      rw [h] at hmem
      exact general_not_mem_detectIntents (lowerStr msg) hmem
  have horder : strContains (lowerStr msg) "order" = false := by
    cases hcb : strContains (lowerStr msg) "order" with
    | false => rfl
    | true =>
      exfalso
      have hmem : Intent.order_request ∈ detectIntents (lowerStr msg) := by
        unfold detectIntents
        exact detect_mem_of_matched (e := (Intent.order_request, orderKeywords))
          (by decide) ⟨"order", by decide, hcb⟩
      rw [hempty] at hmem
      simp at hmem
  have hdelivery : strContains (lowerStr msg) "delivery" = false := by
    cases hcb : strContains (lowerStr msg) "delivery" with
    | false => rfl
    | true =>
      exfalso
      have hmem : Intent.order_request ∈ detectIntents (lowerStr msg) := by
        unfold detectIntents
        exact detect_mem_of_matched (e := (Intent.order_request, orderKeywords))
          (by decide) ⟨"delivery", by decide, hcb⟩
      rw [hempty] at hmem
      simp at hmem
  have hgen : generate_response info msg (analyze_intent msg)
      = generate_mock_response info msg := by
    simp [generate_response, h]
  have hmock : generate_mock_response info msg
      = "We are " ++ lowerStr info.hours ++ "." ∨
      generate_mock_response info msg = "We are located at " ++ info.address ++ "." ∨
      generate_mock_response info msg
        = "We offer " ++ String.intercalate ", " info.menu_categories ++ "." ∨
      generate_mock_response info msg
        = "Thank you for calling " ++ info.name ++ ". We are "
            ++ lowerStr info.hours ++ "." := by
    simp only [generate_mock_response]
    rw [horder, hdelivery]
    by_cases h1 : (strContains (lowerStr msg) "open"
        || strContains (lowerStr msg) "hour") = true
    · rw [if_pos h1]
      exact Or.inl rfl
    · rw [if_neg h1]
      by_cases h2 : (strContains (lowerStr msg) "where"
          || strContains (lowerStr msg) "address") = true
      · rw [if_pos h2]
        exact Or.inr (Or.inl rfl)
      · rw [if_neg h2]
        by_cases h3 : (strContains (lowerStr msg) "menu"
            || strContains (lowerStr msg) "food") = true
        · rw [if_pos h3]
          exact Or.inr (Or.inr (Or.inl rfl))
        · rw [if_neg h3, if_neg (by simp)]
          exact Or.inr (Or.inr (Or.inr rfl))
  have hW : ("We are " : String).data.head? = some 'W' := by decide
  have hWl : ("We are located at " : String).data.head? = some 'W' := by decide
  have hWo : ("We offer " : String).data.head? = some 'W' := by decide
  have hT : ("Thank you for calling " : String).data.head? = some 'T' := by decide
  have hI : ("I'd be happy to connect you with our staff who can help you place your order." : String).data.head?
      = some 'I' := by decide
  refine ⟨horder, hdelivery, ?_, ?_⟩
  · rw [hgen]
    rcases hmock with hm | hm | hm | hm <;> rw [hm]
    · exact ne_of_head_data (data_head_append _ (data_head_append _ hW)) hI (by decide)
    · exact ne_of_head_data (data_head_append _ (data_head_append _ hWl)) hI (by decide)
    · exact ne_of_head_data (data_head_append _ (data_head_append _ hWo)) hI (by decide)
    · exact ne_of_head_data
        (data_head_append _ (data_head_append _ (data_head_append _ (data_head_append _ hT))))
        hI (by decide)
  · rw [hgen]
    exact hmock

/-- Claim C10 witness: an utterance with no keyword at all reaches the
fallback, and its lower-casing indeed contains no `"order"`. -/
theorem fallback_order_unreachable_witness :
    (analyze_intent "zzz").primary_intent = Intent.general_inquiry ∧
    strContains (lowerStr "zzz") "order" = false :=
  ⟨by decide, (fallback_order_unreachable defaultFacts "zzz" (by decide)).1⟩

/-- Claim C3 counterexample: with a failure while computing the reply on a
usable speech result, the webhook answers with the normal speak-and-listen
TwiML carrying the apology text, which is not the escalation effect, and the
session is left unescalated — the call does not continue toward ESCALATING. -/
theorem reply_failure_stays_listening_example :
    (handle_twilio_speech_webhook defaultFacts true
        [("CallSid", "CA1"), ("SpeechResult", "hello"), ("Confidence", "0.9")] []).1
      = Except.ok (create_speech_response apologyText "CA1") ∧
    create_speech_response apologyText "CA1"
      ≠ create_escalation_response defaultFacts.phone ∧
    alistFind (handle_twilio_speech_webhook defaultFacts true
        [("CallSid", "CA1"), ("SpeechResult", "hello"), ("Confidence", "0.9")] []).2
        "CA1"
      = some (newSession "CA1") := by
  decide

/-- Claim C3 amended: on a usable speech result, a failure while computing
the reply is caught and replaced by the fixed apology text, event processing
still completes, and the session is left entirely unchanged; the orchestrator
emits the normal speak-and-listen effect carrying the apology (re-entering
LISTENING) unless the session had already been escalated, in which case the
escalation effect is emitted. -/
theorem reply_failure_amended (info : RestaurantInfo) (form : Form)
    (sessions : Registry) (c : PyFloat)
    (hn : alistGetD form "SpeechResult" "" ≠ "")
    (hc : pyFloat (alistGetD form "Confidence" "0.0") = some c)
    (hlow : c.ltHalf = false) :
    ((get_session sessions (alistGetD form "CallSid" "")).2.escalation_needed = false →
      (handle_twilio_speech_webhook info true form sessions).1
        = Except.ok (create_speech_response apologyText
            (alistGetD form "CallSid" ""))) ∧
    ((get_session sessions (alistGetD form "CallSid" "")).2.escalation_needed = true →
      (handle_twilio_speech_webhook info true form sessions).1
        = Except.ok (create_escalation_response info.phone)) ∧
    (∀ s', alistFind (handle_twilio_speech_webhook info true form sessions).2
        (alistGetD form "CallSid" "") = some s' →
      s'.conversation_history
        = (get_session sessions (alistGetD form "CallSid" "")).2.conversation_history ∧
      s'.escalation_needed
        = (get_session sessions (alistGetD form "CallSid" "")).2.escalation_needed) := by
  have hfailses : get_ai_response info true (alistGetD form "SpeechResult" "")
      (get_session sessions (alistGetD form "CallSid" "")).2
      = (apologyText, (get_session sessions (alistGetD form "CallSid" "")).2) :=
    get_ai_response_fail info _ _
  refine ⟨?_, ?_, ?_⟩
  · intro hpre
    have he2 : ((get_ai_response info true (alistGetD form "SpeechResult" "")
        (get_session sessions (alistGetD form "CallSid" "")).2).2).escalation_needed
          = false := by
      rw [hfailses]
      exact hpre
    rw [speech_webhook_respond info true form sessions c hn hc hlow he2, hfailses]
  · intro hpre
    have he2 : ((get_ai_response info true (alistGetD form "SpeechResult" "")
        (get_session sessions (alistGetD form "CallSid" "")).2).2).escalation_needed
          = true := by
      rw [hfailses]
      exact hpre
    rw [speech_webhook_escalate info true form sessions c hn hc hlow he2]
  · intro s' hfind
    cases hpre : (get_session sessions (alistGetD form "CallSid" "")).2.escalation_needed with
    | false =>
      have he2 : ((get_ai_response info true (alistGetD form "SpeechResult" "")
          (get_session sessions (alistGetD form "CallSid" "")).2).2).escalation_needed
            = false := by
        rw [hfailses]
        exact hpre
      rw [speech_webhook_respond info true form sessions c hn hc hlow he2,
        alistFind_set, if_pos rfl, hfailses] at hfind
      injection hfind with h2
      rw [← h2]
      exact ⟨rfl, hpre⟩
    | true =>
      have he2 : ((get_ai_response info true (alistGetD form "SpeechResult" "")
          (get_session sessions (alistGetD form "CallSid" "")).2).2).escalation_needed
            = true := by
        rw [hfailses]
        exact hpre
      rw [speech_webhook_escalate info true form sessions c hn hc hlow he2,
        alistFind_set, if_pos rfl] at hfind
      injection hfind with h2
      rw [← h2]
      exact ⟨rfl, hpre⟩

/-- Claim C3 amended witness: the counterexample input, through the amended
theorem. -/
theorem reply_failure_amended_witness :
    (alistGetD [("CallSid", "CA1"), ("SpeechResult", "hello"),
        ("Confidence", "0.9")] "SpeechResult" "" ≠ "") ∧
    (handle_twilio_speech_webhook defaultFacts true
        [("CallSid", "CA1"), ("SpeechResult", "hello"), ("Confidence", "0.9")] []).1
      = Except.ok (create_speech_response apologyText "CA1") :=
  ⟨by decide,
   (reply_failure_amended defaultFacts
     [("CallSid", "CA1"), ("SpeechResult", "hello"), ("Confidence", "0.9")] []
     { mantissa := 9, scale := 1 } (by decide) (by decide) (by decide)).1 (by decide)⟩

/-- Claim C4 counterexample: a speech payload whose `Confidence` field does
not parse as a float makes the speech handler raise an uncaught exception
instead of producing a response effect; and the voice handler's
malformed-payload branch answers with a say-only response that contains no
hangup (it is not the error-and-hangup effect of `create_error_response`). -/
theorem webhook_crash_example :
    (handle_twilio_speech_webhook defaultFacts false
        [("CallSid", "CA1"), ("SpeechResult", "hello"), ("Confidence", "abc")] []).1
      = Except.error "ValueError: could not convert string to float" ∧
    (handle_twilio_voice_webhook defaultFacts true [] []).1
      = [TwimlVerb.say "Sorry, there was an error processing your call. Please try again later."] ∧
    TwimlVerb.hangup ∉ (handle_twilio_voice_webhook defaultFacts true [] []).1 := by
  decide

/-- Claim C4 amended: the call-start handler always produces a response
effect (the say-only error answer on a malformed payload, the greeting
otherwise); the status handler always answers OK; the speech handler
produces a response effect whenever the recognized text is empty or the
`Confidence` field parses as a float, and raises an uncaught `ValueError`
when the text is non-empty and `Confidence` does not parse. -/
theorem webhook_total_amended (info : RestaurantInfo) (malformed fail : Bool)
    (form : Form) (sessions : Registry) :
    ((handle_twilio_voice_webhook info malformed form sessions).1
        = [TwimlVerb.say "Sorry, there was an error processing your call. Please try again later."] ∨
      (handle_twilio_voice_webhook info malformed form sessions).1
        = create_greeting_response info.name) ∧
    (handle_twilio_status_webhook form sessions).1 = "OK" ∧
    ((alistGetD form "SpeechResult" "" = "" ∨
        ∃ c, pyFloat (alistGetD form "Confidence" "0.0") = some c) →
      ∃ vs, (handle_twilio_speech_webhook info fail form sessions).1
        = Except.ok vs) ∧
    (alistGetD form "SpeechResult" "" ≠ "" →
      pyFloat (alistGetD form "Confidence" "0.0") = none →
      (handle_twilio_speech_webhook info fail form sessions).1
        = Except.error "ValueError: could not convert string to float") := by
  refine ⟨?_, ?_, ?_, ?_⟩
  · cases malformed with
    | true =>
      left
      simp [handle_twilio_voice_webhook]
    | false =>
      right
      simp [handle_twilio_voice_webhook]
  · unfold handle_twilio_status_webhook
    by_cases ht : alistGetD form "CallStatus" "" ∈ terminalStatuses
    · rw [if_pos ht]
      cases hf : alistFind sessions (alistGetD form "CallSid" "") with
      | none => rfl
      | some t => rfl
    · rw [if_neg ht]
  · intro hok
    by_cases hempty : alistGetD form "SpeechResult" "" = ""
    · rw [speech_webhook_clarify info fail form sessions (Or.inl hempty)]
      exact ⟨_, rfl⟩
    · rcases hok with hempty2 | ⟨c, hc⟩
      · exact absurd hempty2 hempty
      · cases hl : c.ltHalf with
        | true =>
          rw [speech_webhook_clarify info fail form sessions (Or.inr ⟨c, hc, hl⟩)]
          exact ⟨_, rfl⟩
        | false =>
          cases he : ((get_ai_response info fail (alistGetD form "SpeechResult" "")
              (get_session sessions (alistGetD form "CallSid" "")).2).2).escalation_needed with
          | false =>
            rw [speech_webhook_respond info fail form sessions c hempty hc hl he]
            exact ⟨_, rfl⟩
          | true =>
            rw [speech_webhook_escalate info fail form sessions c hempty hc hl he]
            exact ⟨_, rfl⟩
  · intro hn hc
    rw [speech_webhook_error info fail form sessions hn hc]

/-- Claim C4 amended witness: concrete payloads through the amended
theorem. -/
theorem webhook_total_amended_witness :
    (handle_twilio_status_webhook
        [("CallSid", "CA1"), ("CallStatus", "completed")] []).1 = "OK" ∧
    (handle_twilio_speech_webhook defaultFacts false
        [("CallSid", "CA1"), ("SpeechResult", "hello"), ("Confidence", "abc")] []).1
      = Except.error "ValueError: could not convert string to float" :=
  ⟨(webhook_total_amended defaultFacts false false
      [("CallSid", "CA1"), ("CallStatus", "completed")] []).2.1,
   (webhook_total_amended defaultFacts false false
      [("CallSid", "CA1"), ("SpeechResult", "hello"), ("Confidence", "abc")] []).2.2.2
     (by decide) (by decide)⟩

/-- Claim C5: on a speech-result event whose text is non-empty, whose
confidence is at least 0.5, and whose analysis does not escalate (with the
reply computed without failure), the session's history grows by exactly two
turns — the user turn with the recognized text, then the assistant turn with
the generated reply; on a clarifying event it grows by zero. -/
theorem history_growth (info : RestaurantInfo) (form : Form)
    (sessions : Registry) :
    (∀ c : PyFloat, alistGetD form "SpeechResult" "" ≠ "" →
      pyFloat (alistGetD form "Confidence" "0.0") = some c → c.ltHalf = false →
      (analyze_intent (alistGetD form "SpeechResult" "")).escalation_needed
        = false →
      ∃ s', alistFind (handle_twilio_speech_webhook info false form sessions).2
          (alistGetD form "CallSid" "") = some s' ∧
        s'.conversation_history
          = (get_session sessions (alistGetD form "CallSid" "")).2.conversation_history
            ++ [{ role := "user", content := alistGetD form "SpeechResult" "" },
                { role := "assistant", content := generate_response info
                    (alistGetD form "SpeechResult" "")
                    (analyze_intent (alistGetD form "SpeechResult" "")) }]) ∧
    ((alistGetD form "SpeechResult" "" = "" ∨
        ∃ c, pyFloat (alistGetD form "Confidence" "0.0") = some c ∧
          c.ltHalf = true) →
      ∃ s', alistFind (handle_twilio_speech_webhook info false form sessions).2
          (alistGetD form "CallSid" "") = some s' ∧
        s'.conversation_history
          = (get_session sessions (alistGetD form "CallSid" "")).2.conversation_history) := by
  constructor
  · intro c hn hc hlow hesc
    have hses : (get_ai_response info false (alistGetD form "SpeechResult" "")
        (get_session sessions (alistGetD form "CallSid" "")).2).2
        = addMessage (addMessage
            (get_session sessions (alistGetD form "CallSid" "")).2
            "user" (alistGetD form "SpeechResult" "")) "assistant"
            (generate_response info (alistGetD form "SpeechResult" "")
              (analyze_intent (alistGetD form "SpeechResult" ""))) := by
      rw [get_ai_response_no_escalation info _ _ hesc]
    have hhist : ((get_ai_response info false (alistGetD form "SpeechResult" "")
        (get_session sessions (alistGetD form "CallSid" "")).2).2).conversation_history
        = (get_session sessions (alistGetD form "CallSid" "")).2.conversation_history
          ++ [{ role := "user", content := alistGetD form "SpeechResult" "" },
              { role := "assistant", content := generate_response info
                  (alistGetD form "SpeechResult" "")
                  (analyze_intent (alistGetD form "SpeechResult" "")) }] := by
      rw [hses]
      simp [addMessage]
    cases he2 : ((get_ai_response info false (alistGetD form "SpeechResult" "")
        (get_session sessions (alistGetD form "CallSid" "")).2).2).escalation_needed with
    | false =>
      rw [speech_webhook_respond info false form sessions c hn hc hlow he2]
      refine ⟨_, ?_, hhist⟩
      rw [alistFind_set, if_pos rfl]
    | true =>
      rw [speech_webhook_escalate info false form sessions c hn hc hlow he2]
      exact ⟨_, alistFind_set_self _ _ _, hhist⟩
  · intro hclar
    rw [speech_webhook_clarify info false form sessions hclar]
    exact ⟨_, alistFind_get_session sessions _, rfl⟩

/-- Claim C5 witness: a greeting utterance on a fresh session leaves exactly
the user and assistant turns. -/
theorem history_growth_witness :
    (alistFind (handle_twilio_speech_webhook defaultFacts false
        [("CallSid", "CA1"), ("SpeechResult", "hello there"), ("Confidence", "0.9")]
        []).2 "CA1").map CallSession.conversation_history
      = some [{ role := "user", content := "hello there" },
              { role := "assistant", content := generate_response defaultFacts
                  "hello there" (analyze_intent "hello there") }] := by
  obtain ⟨s', hfind, hhist⟩ := (history_growth defaultFacts
    [("CallSid", "CA1"), ("SpeechResult", "hello there"), ("Confidence", "0.9")]
    []).1 { mantissa := 9, scale := 1 } (by decide) (by decide) (by decide)
    (by decide)
  have hfind2 : alistFind (handle_twilio_speech_webhook defaultFacts false
      [("CallSid", "CA1"), ("SpeechResult", "hello there"), ("Confidence", "0.9")]
      []).2 "CA1" = some s' := hfind
  rw [hfind2, Option.map_some', hhist]
  rfl

/-- Claim C6: a speech-result event with empty text or confidence below 0.5
answers with the clarify prompt and leaves the registered session — its
history, escalation flag and summary — exactly as before: the registry is
unchanged. -/
theorem clarify_frame (info : RestaurantInfo) (fail : Bool) (form : Form)
    (sessions : Registry) (s : CallSession)
    (hs : alistFind sessions (alistGetD form "CallSid" "") = some s)
    (hclar : alistGetD form "SpeechResult" "" = "" ∨
      ∃ c, pyFloat (alistGetD form "Confidence" "0.0") = some c ∧
        c.ltHalf = true) :
    (handle_twilio_speech_webhook info fail form sessions).1
      = Except.ok create_unclear_response ∧
    (handle_twilio_speech_webhook info fail form sessions).2 = sessions ∧
    alistFind (handle_twilio_speech_webhook info fail form sessions).2
      (alistGetD form "CallSid" "") = some s := by
  rw [speech_webhook_clarify info fail form sessions hclar,
    get_session_fst_of_find hs]
  exact ⟨rfl, rfl, hs⟩

/-- Claim C6 witness: the scenario event, confidence 0.3 with non-empty
text. -/
theorem clarify_frame_witness :
    alistFind [("CA1", newSession "CA1")] "CA1" = some (newSession "CA1") ∧
    (handle_twilio_speech_webhook defaultFacts false
        [("CallSid", "CA1"), ("SpeechResult", "hello"), ("Confidence", "0.3")]
        [("CA1", newSession "CA1")]).1 = Except.ok create_unclear_response ∧
    (handle_twilio_speech_webhook defaultFacts false
        [("CallSid", "CA1"), ("SpeechResult", "hello"), ("Confidence", "0.3")]
        [("CA1", newSession "CA1")]).2 = [("CA1", newSession "CA1")] :=
  ⟨by decide,
   (clarify_frame defaultFacts false
     [("CallSid", "CA1"), ("SpeechResult", "hello"), ("Confidence", "0.3")]
     [("CA1", newSession "CA1")] (newSession "CA1") (by decide)
     (Or.inr ⟨{ mantissa := 3, scale := 1 }, by decide, by decide⟩)).1,
   (clarify_frame defaultFacts false
     [("CallSid", "CA1"), ("SpeechResult", "hello"), ("Confidence", "0.3")]
     [("CA1", newSession "CA1")] (newSession "CA1") (by decide)
     (Or.inr ⟨{ mantissa := 3, scale := 1 }, by decide, by decide⟩)).2.1⟩

/-- Claim C7: a usable speech result whose analysis escalates makes the
webhook emit the escalation (transfer-to-human) effect instead of the normal
speak-and-listen effect, mark the session escalated, and store a call
summary with `final_intent = "Escalated to human"` and `conversation_length`
equal to the history length. -/
theorem escalation_turn (info : RestaurantInfo) (form : Form)
    (sessions : Registry) (c : PyFloat)
    (hn : alistGetD form "SpeechResult" "" ≠ "")
    (hc : pyFloat (alistGetD form "Confidence" "0.0") = some c)
    (hlow : c.ltHalf = false)
    (hesc : (analyze_intent (alistGetD form "SpeechResult" "")).escalation_needed
      = true) :
    (handle_twilio_speech_webhook info false form sessions).1
      = Except.ok (create_escalation_response info.phone) ∧
    ∃ s', alistFind (handle_twilio_speech_webhook info false form sessions).2
        (alistGetD form "CallSid" "") = some s' ∧
      s'.escalation_needed = true ∧
      s'.call_summary = some
        { call_sid := alistGetD form "CallSid" ""
          caller_phone := alistGetD
            (get_session sessions (alistGetD form "CallSid" "")).2.caller_info
            "phone" "Unknown"
          final_intent := "Escalated to human"
          conversation_length := s'.conversation_history.length
          escalation_reason := "Order/Reservation/Complaint detected" } := by
  have he2 : ((get_ai_response info false (alistGetD form "SpeechResult" "")
      (get_session sessions (alistGetD form "CallSid" "")).2).2).escalation_needed
        = true := by
    rw [get_ai_response_escalation info _ _ hesc]
    rfl
  rw [speech_webhook_escalate info false form sessions c hn hc hlow he2]
  refine ⟨rfl, _, alistFind_set_self _ _ _, ?_, ?_⟩
  · exact he2
  · rw [get_ai_response_caller_info]

/-- Claim C7 witness: the scenario utterance. -/
theorem escalation_turn_witness :
    (analyze_intent "I'd like to make a reservation for two").escalation_needed
      = true ∧
    (handle_twilio_speech_webhook defaultFacts false
        [("CallSid", "CA1"),
         ("SpeechResult", "I'd like to make a reservation for two"),
         ("Confidence", "0.9")] []).1
      = Except.ok (create_escalation_response defaultFacts.phone) :=
  ⟨by decide,
   (escalation_turn defaultFacts
     [("CallSid", "CA1"),
      ("SpeechResult", "I'd like to make a reservation for two"),
      ("Confidence", "0.9")] [] { mantissa := 9, scale := 1 }
     (by decide) (by decide) (by decide) (by decide)).1⟩

theorem status_webhook_found {form : Form} {sessions : Registry}
    {s : CallSession}
    (hterm : alistGetD form "CallStatus" "" ∈ terminalStatuses)
    (hf : alistFind sessions (alistGetD form "CallSid" "") = some s) :
    handle_twilio_status_webhook form sessions =
      ("OK", alistErase sessions (alistGetD form "CallSid" ""), some
        { call_sid := alistGetD form "CallSid" ""
          caller_phone := alistGetD form "From" ""
          call_status := alistGetD form "CallStatus" ""
          conversation_length := s.conversation_history.length
          escalated := s.escalation_needed
          summary := s.call_summary }) := by
  unfold handle_twilio_status_webhook
  rw [if_pos hterm, hf]

theorem get_session_of_find_none {sessions : Registry} {sid : String}
    (h : alistFind sessions sid = none) :
    get_session sessions sid
      = (alistSet sessions sid (newSession sid), newSession sid) := by
  unfold get_session
  rw [h]

/-- Claim C9: a call-status event with a terminal status always answers OK;
for a registered call it builds the final summary and removes the session,
so a later `get_session` yields a fresh session with empty history and a
clear escalation flag; for an unknown call it is a no-op on the registry. -/
theorem terminal_status_destroys_session (form : Form) (sessions : Registry)
    (hterm : alistGetD form "CallStatus" "" ∈ terminalStatuses) :
    (handle_twilio_status_webhook form sessions).1 = "OK" ∧
    (∀ s, alistFind sessions (alistGetD form "CallSid" "") = some s →
      (handle_twilio_status_webhook form sessions).2.2 = some
        { call_sid := alistGetD form "CallSid" ""
          caller_phone := alistGetD form "From" ""
          call_status := alistGetD form "CallStatus" ""
          conversation_length := s.conversation_history.length
          escalated := s.escalation_needed
          summary := s.call_summary } ∧
      alistFind (handle_twilio_status_webhook form sessions).2.1
        (alistGetD form "CallSid" "") = none ∧
      (get_session (handle_twilio_status_webhook form sessions).2.1
        (alistGetD form "CallSid" "")).2
        = newSession (alistGetD form "CallSid" "") ∧
      (get_session (handle_twilio_status_webhook form sessions).2.1
        (alistGetD form "CallSid" "")).2.conversation_history = [] ∧
      (get_session (handle_twilio_status_webhook form sessions).2.1
        (alistGetD form "CallSid" "")).2.escalation_needed = false) ∧
    (alistFind sessions (alistGetD form "CallSid" "") = none →
      (handle_twilio_status_webhook form sessions).2.1 = sessions ∧
      (handle_twilio_status_webhook form sessions).2.2 = none) := by
  refine ⟨?_, ?_, ?_⟩
  · unfold handle_twilio_status_webhook
    rw [if_pos hterm]
    cases hf : alistFind sessions (alistGetD form "CallSid" "") with
    | none => rfl
    | some t => rfl
  · intro s hf
    rw [status_webhook_found hterm hf]
    have herase : alistFind
        (alistErase sessions (alistGetD form "CallSid" ""))
        (alistGetD form "CallSid" "") = none := by
      rw [alistFind_erase, if_pos rfl]
    refine ⟨rfl, herase, ?_, ?_, ?_⟩
    · rw [get_session_of_find_none herase]
    · rw [get_session_of_find_none herase]
      rfl
    · rw [get_session_of_find_none herase]
      rfl
  · intro hf
    unfold handle_twilio_status_webhook
    rw [if_pos hterm, hf]
    exact ⟨rfl, rfl⟩

/-- Claim C9 witness: a completed call with a registered session, and the
freshness of the re-created session. -/
theorem terminal_status_destroys_session_witness :
    alistFind [("CA1", markEscalation (newSession "CA1"))] "CA1"
      = some (markEscalation (newSession "CA1")) ∧
    alistFind (handle_twilio_status_webhook
        [("CallSid", "CA1"), ("CallStatus", "completed"), ("From", "+15550100")]
        [("CA1", markEscalation (newSession "CA1"))]).2.1 "CA1" = none ∧
    (get_session (handle_twilio_status_webhook
        [("CallSid", "CA1"), ("CallStatus", "completed"), ("From", "+15550100")]
        [("CA1", markEscalation (newSession "CA1"))]).2.1 "CA1").2.escalation_needed
      = false :=
  ⟨by decide,
   ((terminal_status_destroys_session
     [("CallSid", "CA1"), ("CallStatus", "completed"), ("From", "+15550100")]
     [("CA1", markEscalation (newSession "CA1"))] (by decide)).2.1
     (markEscalation (newSession "CA1")) (by decide)).2.1,
   ((terminal_status_destroys_session
     [("CallSid", "CA1"), ("CallStatus", "completed"), ("From", "+15550100")]
     [("CA1", markEscalation (newSession "CA1"))] (by decide)).2.1
     (markEscalation (newSession "CA1")) (by decide)).2.2.2.2⟩

end VoiceAgent
